import Mathlib

/-!
Verification of the session/authentication core of the smart_school_managment
repository, shallowly embedded in Lean 4.

The embedded code:
- frontend/src/utils/auth.js        : decodeToken, isTokenValid, getUserFromToken, hasRole
- frontend/src/contexts/AuthContext.js : checkAuthStatus, login, logout, refreshToken,
                                         the setupInterceptors response interceptor
- frontend/src/services/api.js      : the response error interceptor registered at module
                                      load (the 401 branch clears both stored tokens)

JavaScript string primitives (split on ".", toLowerCase, trim, global single-character
replace) are modelled character-by-character so that every definition evaluates inside
the kernel.  JSON.parse composed with atob is modelled as an abstract parameter
`parse : String → Option TokenPayload`, reflecting that JSON.parse either yields a
payload object or throws (the throw is caught and mapped to null by the source).
Wall-clock time `Date.now() / 1000` is an explicit `now : Int` parameter.
-/

/-- Model of the JavaScript `s.split(".")` on character lists: splits at every
occurrence of the dot, keeping empty segments, and yields one (empty) segment for
the empty string. -/
def jsSplitDotAux : List Char → List (List Char)
  | [] => [[]]
  | c :: rest =>
    let r := jsSplitDotAux rest
    if c = '.' then [] :: r
    else
      match r with
      | [] => [[c]]
      | g :: gs => (c :: g) :: gs

/-- JavaScript `token.split(".")`. -/
def jsSplitDot (s : String) : List String :=
  (jsSplitDotAux s.data).map String.mk

/-- ASCII lower-casing of one character, as JavaScript `toLowerCase` acts on the
ASCII range used by email addresses. -/
def jsCharLower (c : Char) : Char :=
  if c.toNat ≥ 65 ∧ c.toNat ≤ 90 then Char.ofNat (c.toNat + 32) else c

/-- JavaScript `s.toLowerCase()`. -/
def jsToLower (s : String) : String :=
  String.mk (s.data.map jsCharLower)

/-- Whitespace recognised by JavaScript `trim`. -/
def jsIsSpace (c : Char) : Bool :=
  c = ' ' ∨ c = '\t' ∨ c = '\n' ∨ c = '\r'

/-- JavaScript `s.trim()`: strip whitespace from both ends. -/
def jsTrim (s : String) : String :=
  String.mk ((s.data.dropWhile jsIsSpace).reverse.dropWhile jsIsSpace).reverse

/-- JavaScript `s.replace(/x/g, "y")` for one-character pattern and replacement. -/
def jsReplaceChar (pat rep : Char) (s : String) : String :=
  String.mk (s.data.map (fun c => if c = pat then rep else c))

/-- The decoded JWT payload used by auth.js: subject, email, names, role,
expiry and issued-at timestamps (seconds since epoch). -/
structure TokenPayload where
  sub : String
  email : String
  first_name : String
  last_name : String
  role : String
  exp : Int
  iat : Int
deriving DecidableEq

/-- auth.js line 19: payload with every dash replaced by plus and then every
underscore by slash — base64url to base64 normalisation applied before atob. -/
def b64urlNormalize (payload : String) : String :=
  jsReplaceChar '_' '/' (jsReplaceChar '-' '+' payload)

/-- auth.js `decodeToken`: null for a falsy token; split on "."; null unless there
are exactly three segments; otherwise JSON.parse(atob(...)) of the middle segment,
where a parse failure (the JS throw, caught by the surrounding try) is `none`.
The parser is the abstract `parse` parameter. -/
def decodeToken (parse : String → Option TokenPayload) (token : String) :
    Option TokenPayload :=
  if token = "" then none
  else
    match jsSplitDot token with
    | [_h, payload, _sig] => parse (b64urlNormalize payload)
    | _ => none

/-- auth.js `isTokenValid`: false if decode fails, else `decoded.exp > currentTime`
with `currentTime = Date.now() / 1000` modelled by `now`. -/
def isTokenValid (parse : String → Option TokenPayload) (now : Int)
    (token : String) : Bool :=
  match decodeToken parse token with
  | none => false
  | some decoded => decide (decoded.exp > now)

/-- The object auth.js `getUserFromToken` builds from a decoded payload. -/
structure TokenUser where
  id : String
  email : String
  first_name : String
  last_name : String
  role : String
  exp : Int
  iat : Int
deriving DecidableEq

/-- auth.js `getUserFromToken`: null unless decode succeeds and the token is valid;
otherwise the payload fields mapped onto the user object. -/
def getUserFromToken (parse : String → Option TokenPayload) (now : Int)
    (token : String) : Option TokenUser :=
  match decodeToken parse token with
  | none => none
  | some d =>
    if isTokenValid parse now token then
      some ⟨d.sub, d.email, d.first_name, d.last_name, d.role, d.exp, d.iat⟩
    else none

/-- The user object held by AuthContext state: `name` and `role` always set;
`email` and `id` only set on the login path (checkAuthStatus omits them). -/
structure UserData where
  name : String
  role : String
  email : Option String
  id : Option String
deriving DecidableEq

/-- auth.js `hasRole` second argument: a single role string or an array of roles. -/
inductive RequiredRoles where
  | arr (roles : List String)
  | single (role : String)
deriving DecidableEq

/-- auth.js `hasRole`: false for a missing user or a falsy role; for an array
argument a membership test via `includes`; for a string argument equality. -/
def hasRole (user : Option UserData) (requiredRoles : RequiredRoles) : Bool :=
  match user with
  | none => false
  | some u =>
    if u.role = "" then false
    else
      match requiredRoles with
      | .arr roles => roles.contains u.role
      | .single r => u.role = r

/-- The localStorage entries under the fixed keys accessToken / refreshToken. -/
structure Store where
  accessToken : Option String
  refreshToken : Option String
deriving DecidableEq

/-- The process-wide session: the two stored tokens, the axios default
Authorization header, the React user state and the isAuthenticated flag. -/
structure AuthState where
  store : Store
  authHeader : Option String
  user : Option UserData
  isAuthenticated : Bool
deriving DecidableEq

/-- The state AuthContext `logout` leaves behind: both stored tokens removed,
the default Authorization header deleted, user null, isAuthenticated false. -/
def loggedOutState : AuthState :=
  ⟨⟨none, none⟩, none, none, false⟩

/-- AuthContext `logout`: unconditionally clears store, header and state. -/
def logout (_s : AuthState) : AuthState :=
  loggedOutState

/-- AuthContext `checkAuthStatus` (startup restoration): reads the stored access
token; if it is present, truthy and valid, derives the user and sets the flag and
the default header; otherwise leaves the state — including the store — untouched.
(The catch branch that calls logout is unreachable here: every operation in the
try block is modelled total.) -/
def checkAuthStatus (parse : String → Option TokenPayload) (now : Int)
    (s : AuthState) : AuthState :=
  match s.store.accessToken with
  | none => s
  | some token =>
    if token = "" then s
    else if isTokenValid parse now token then
      match getUserFromToken parse now token with
      | some td =>
        { s with
            user := some ⟨jsTrim ((td.first_name ++ " ") ++ td.last_name), td.role,
                          none, none⟩,
            isAuthenticated := true,
            authHeader := some ("Bearer " ++ token) }
      | none => s
    else s

/-- The `user` field of a successful /auth/login response. -/
structure LoginUserInfo where
  id : String
  email : String
  first_name : String
  last_name : String
  role : String
deriving DecidableEq

/-- A successful /auth/login response body (the fields the controller uses). -/
structure LoginResponse where
  access_token : String
  refresh_token : String
  user : LoginUserInfo
deriving DecidableEq

/-- The structured result AuthContext `login` returns to its caller:
success carries the user object, failure carries the error message.
The JS function never throws: the whole body sits in a try/catch. -/
inductive LoginResult where
  | success (user : UserData)
  | failure (error : String)
deriving DecidableEq

/-- The request body login posts to /auth/login. -/
structure LoginRequestBody where
  email : String
  password : String
deriving DecidableEq

/-- AuthContext login catch branch: `error.message || "Login failed. Please try
again."` — the fallback applies when the message is falsy (empty). -/
def loginErrorMessage (msg : String) : String :=
  if msg = "" then "Login failed. Please try again." else msg

/-- AuthContext `login`: posts `{email: email.toLowerCase().trim(), password}`;
on a successful response stores both tokens, sets the user (name from first and
last name, plus email and id), sets the default header and the flag, and returns
a success result; on any failure returns a structured failure result and leaves
the state unchanged.  The backend is modelled as the outcome of the post:
`.ok` a response body, `.error` the message of the rejection. -/
def login (email _password : String) (backend : Except String LoginResponse)
    (s : AuthState) : LoginResult × AuthState × LoginRequestBody :=
  let body : LoginRequestBody := ⟨jsTrim (jsToLower email), _password⟩
  match backend with
  | .ok resp =>
    let userData : UserData :=
      ⟨jsTrim ((resp.user.first_name ++ " ") ++ resp.user.last_name),
        resp.user.role, some resp.user.email, some resp.user.id⟩
    (.success userData,
      { store := ⟨some resp.access_token, some resp.refresh_token⟩,
        authHeader := some ("Bearer " ++ resp.access_token),
        user := some userData,
        isAuthenticated := true },
      body)
  | .error msg => (.failure (loginErrorMessage msg), s, body)

/-- Failure modes of AuthContext `refreshToken`: the fail-fast throw when the
store holds no refresh token, and a rejected /auth/refresh call. -/
inductive RefreshErr where
  | noRefreshToken
  | requestFailed
deriving DecidableEq

/-- AuthContext `refreshToken` (the spec name is refreshAccessToken): reads the
stored refresh token; if it is falsy — absent, or the empty string — throws
"No refresh token available" (caught by its own catch, which calls logout() and
rethrows) without calling the endpoint; otherwise calls /auth/refresh
authenticated by the refresh token (`refreshBackend` is `some t` when the
endpoint answers with access_token `t`, `none` when the call fails); on success
stores the new access token and updates the default header, touching neither
`user` nor `isAuthenticated`; on failure calls logout() and propagates.  The
third component counts calls actually made to /auth/refresh. -/
def refreshToken (refreshBackend : Option String) (s : AuthState) :
    Except RefreshErr String × AuthState × Nat :=
  match s.store.refreshToken with
  | none => (.error .noRefreshToken, logout s, 0)
  | some rt =>
    if rt = "" then (.error .noRefreshToken, logout s, 0)
    else
      match refreshBackend with
      | some t =>
        (.ok t,
          { s with
              store := { s.store with accessToken := some t },
              authHeader := some ("Bearer " ++ t) },
          1)
      | none => (.error .requestFailed, logout s, 1)

/-- api.js response error interceptor (registered at module load, hence first):
on a 401 it removes both stored tokens; every status is then re-rejected to the
next handler.  Other statuses only log. -/
def baseErrorHandler (status : Nat) (s : AuthState) : AuthState :=
  if status = 401 then { s with store := ⟨none, none⟩ } else s

/-- What the AuthContext interceptor error handler resolves to: re-issue the
original request with the refreshed token, or reject the error to the caller. -/
inductive AuthHandlerAction where
  | retryRequest (newToken : String)
  | rejectError
deriving DecidableEq

/-- AuthContext setupInterceptors response error handler: on a 401 whose request
has no `_retry` marker, it sets the marker, awaits refreshToken() and on success
re-issues the original request; if the refresh throws it calls logout() and
rejects the refresh error.  Any other status, or a marked request, is rejected
unchanged. -/
def authErrorHandler (status : Nat) (retried : Bool)
    (refreshBackend : Option String) (s : AuthState) :
    AuthHandlerAction × AuthState × Nat :=
  if status = 401 ∧ retried = false then
    match refreshToken refreshBackend s with
    | (.ok t, s2, calls) => (.retryRequest t, s2, calls)
    | (.error _e, s2, calls) => (.rejectError, logout s2, calls)
  else (.rejectError, s, 0)

/-- The response error path of the axios instance once AuthContext has registered
its interceptor: handlers run in registration order, so the api.js handler
(clearing the store on 401) runs first and the AuthContext refresh-retry handler
second, on the state the first one left. -/
def responseErrorChain (status : Nat) (retried : Bool)
    (refreshBackend : Option String) (s : AuthState) :
    AuthHandlerAction × AuthState × Nat :=
  authErrorHandler status retried refreshBackend (baseErrorHandler status s)

/-- Outcome of one HTTP attempt: success, or an error response with a status. -/
inductive HttpResult where
  | ok
  | err (status : Nat)
deriving DecidableEq

/-- Overall outcome a caller of the api instance observes. -/
inductive ReqOutcome where
  | success
  | failure
deriving DecidableEq

/-- Observable side-effect counts of one request lifecycle. -/
structure Trace where
  refreshEndpointCalls : Nat
  retriedCalls : Nat
deriving DecidableEq

/-- One protected request through the interceptor chain of an authenticated
session: the first attempt answers `first`; a 401 runs the error chain with the
fresh request's `_retry = false`; a granted retry re-issues the original request
once (answering `retryResult`), whose own error runs the chain with
`_retry = true`.  Returns the caller-visible outcome, the final session state
and the trace of refresh-endpoint calls and retries. -/
def processRequest (first retryResult : HttpResult)
    (refreshBackend : Option String) (s : AuthState) :
    ReqOutcome × AuthState × Trace :=
  match first with
  | .ok => (.success, s, ⟨0, 0⟩)
  | .err st =>
    match responseErrorChain st false refreshBackend s with
    | (.retryRequest _t, s2, calls) =>
      match retryResult with
      | .ok => (.success, s2, ⟨calls, 1⟩)
      | .err st2 =>
        match responseErrorChain st2 true refreshBackend s2 with
        | (_act, s3, calls2) => (.failure, s3, ⟨calls + calls2, 1⟩)
    | (.rejectError, s2, calls) => (.failure, s2, ⟨calls, 0⟩)

/-- A parse function standing for a JSON payload whose expiry is 99 seconds
after the epoch, used to instantiate the validity theorems. -/
def expiredParse : String → Option TokenPayload :=
  fun _ => some ⟨"u1", "a@b.com", "Jane", "Doe", "teacher", 99, 0⟩

/-- The stored state just before a restart restoration: an access token whose
payload is expired (under expiredParse at time 100) plus a refresh token. -/
def staleRestoreState : AuthState :=
  ⟨⟨some "h.p.s", some "refR"⟩, none, none, false⟩

/-- An authenticated mid-session state: both tokens stored, default header set,
user populated, flag true — the starting point of the refresh scenarios. -/
def midSessionState : AuthState :=
  ⟨⟨some "accessA", some "refreshR"⟩, some "Bearer accessA",
    some ⟨"Jane Doe", "teacher", some "a@b.com", some "u1"⟩, true⟩

/-- A second authenticated mid-session state, for the retry-count scenario. -/
def midSessionState2 : AuthState :=
  ⟨⟨some "accA", some "refR"⟩, some "Bearer accA",
    some ⟨"Tom User", "teacher", none, none⟩, true⟩

lemma authErrorHandler_retried :
    ∀ (st : Nat) (backend : Option String) (s : AuthState),
      authErrorHandler st true backend s = (.rejectError, s, 0) := by
  intro st backend s
  simp [authErrorHandler]

lemma responseErrorChain_retried :
    ∀ (st : Nat) (backend : Option String) (s : AuthState),
      responseErrorChain st true backend s = (.rejectError, baseErrorHandler st s, 0) := by
  intro st backend s
  simp [responseErrorChain, authErrorHandler_retried]

lemma responseErrorChain_fresh :
    ∀ (st : Nat) (backend : Option String) (s : AuthState),
      responseErrorChain st false backend s =
        if st = 401 then (.rejectError, loggedOutState, 0)
        else (.rejectError, s, 0) := by
  intro st backend s
  by_cases h : st = 401
  · subst h
    simp [responseErrorChain, authErrorHandler, baseErrorHandler, refreshToken,
      logout]
  · simp [responseErrorChain, authErrorHandler, baseErrorHandler, h]

lemma processRequest_trace :
    ∀ (first retryResult : HttpResult) (backend : Option String) (s : AuthState),
      (processRequest first retryResult backend s).2.2 = ⟨0, 0⟩ := by
  intro first retryResult backend s
  cases first with
  | ok => rfl
  | err st =>
    by_cases h : st = 401 <;>
      simp [processRequest, responseErrorChain_fresh, h]

/-- Claim C7: decodeToken returns none (and, being a total function, never
throws) whenever the token does not split into exactly three dot-separated
segments, and whenever the middle (payload) segment does not parse; in
particular it returns none for every string whose dot-split has other than
three parts. -/
theorem c7_decode_malformed_none :
    ∀ (parse : String → Option TokenPayload) (token : String),
      ((jsSplitDot token).length ≠ 3 → decodeToken parse token = none) ∧
      (∀ hseg pay sig, jsSplitDot token = [hseg, pay, sig] →
        parse (b64urlNormalize pay) = none → decodeToken parse token = none) := by
  intro parse token
  constructor
  · intro hlen
    by_cases ht : token = ""
    · simp [decodeToken, ht]
    · unfold decodeToken
      rw [if_neg ht]
      rcases hs : jsSplitDot token with _ | ⟨a, _ | ⟨b, _ | ⟨c, _ | ⟨d, tl⟩⟩⟩⟩ <;>
        first
          | rfl
          | (rw [hs] at hlen; simp at hlen)
  · intro hseg pay sig hs hp
    by_cases ht : token = ""
    · simp [decodeToken, ht]
    · unfold decodeToken
      rw [if_neg ht, hs]
      exact hp

/-- Witness for C7 at the concrete malformed token "a.b" (one separator). -/
theorem c7_decode_malformed_none_witness :
    decodeToken (fun _ => none) "a.b" = none :=
  (c7_decode_malformed_none (fun _ => none) "a.b").1 (by decide)

/-- Claim C8: getUserFromToken returns none for every token on which decode
fails or whose validity check is false, and for every token that passes the
validity check it returns a populated user object carrying exactly the payload
fields, in particular a role equal to the payload role. -/
theorem c8_deriveUser_contract :
    ∀ (parse : String → Option TokenPayload) (now : Int) (token : String),
      ((decodeToken parse token = none ∨ isTokenValid parse now token = false) →
        getUserFromToken parse now token = none) ∧
      (isTokenValid parse now token = true →
        ∃ d, decodeToken parse token = some d ∧
          getUserFromToken parse now token =
            some ⟨d.sub, d.email, d.first_name, d.last_name, d.role, d.exp,
              d.iat⟩) := by
  intro parse now token
  rcases hd : decodeToken parse token with _ | d
  · constructor
    · intro _h
      simp [getUserFromToken, hd]
    · intro hv
      simp [isTokenValid, hd] at hv
  · constructor
    · rintro (h | hv)
      · simp [hd] at h
      · simp [getUserFromToken, hd, hv]
    · intro hv
      exact ⟨d, rfl, by simp [getUserFromToken, hd, hv]⟩

/-- Witness for C8 at a concrete token whose payload does not parse. -/
theorem c8_deriveUser_contract_witness :
    getUserFromToken (fun _ => none) 0 "a.b.c" = none :=
  (c8_deriveUser_contract (fun _ => none) 0 "a.b.c").1 (Or.inl (by decide))

/-- Claim C9: isTokenValid is false for every token decode fails on, and
otherwise is exactly the truth of payload.exp > now at the moment of the
check; a payload expiring one second in the past yields false, one second in
the future yields true. -/
theorem c9_isValid_contract :
    ∀ (parse : String → Option TokenPayload) (now : Int) (token : String),
      (decodeToken parse token = none → isTokenValid parse now token = false) ∧
      (∀ d, decodeToken parse token = some d →
        (isTokenValid parse now token = true ↔ d.exp > now)) ∧
      (∀ d, decodeToken parse token = some d → d.exp = now - 1 →
        isTokenValid parse now token = false) ∧
      (∀ d, decodeToken parse token = some d → d.exp = now + 1 →
        isTokenValid parse now token = true) := by
  intro parse now token
  refine ⟨?_, ?_, ?_, ?_⟩
  · intro hd
    simp [isTokenValid, hd]
  · intro d hd
    simp [isTokenValid, hd]
  · intro d hd he
    simp [isTokenValid, hd, he]
  · intro d hd he
    simp [isTokenValid, hd, he]

/-- Witness for C9: under expiredParse the payload expiry 99 is one second in
the past at time 100, and the token is judged invalid. -/
theorem c9_isValid_contract_witness :
    isTokenValid expiredParse 100 "a.b.c" = false :=
  (c9_isValid_contract expiredParse 100 "a.b.c").2.2.1
    ⟨"u1", "a@b.com", "Jane", "Doe", "teacher", 99, 0⟩ (by decide) (by decide)

/-- Counterexample to claim C10: an authenticated teacher with an empty
required-roles array is rejected by hasRole (the membership test returns
false), where the claim asserts the decision is Allow. -/
theorem c10_counterexample :
    hasRole (some ⟨"Ms T", "teacher", none, none⟩) (.arr []) = false := by
  decide

/-- Claim C10 (amended): for every user — authenticated or not — the
membership test hasRole with an empty requiredRoles array returns false: an
empty role requirement denies rather than allowing any authenticated user. -/
theorem c10_empty_required_roles_denies :
    ∀ (user : Option UserData), hasRole user (.arr []) = false := by
  intro user
  cases user with
  | none => rfl
  | some u =>
    by_cases h : u.role = "" <;> simp [hasRole, h]

/-- Claim C1 evaluation at the failing input (code bug): from the authenticated
mid-session state, a protected call answered with a single 401 — with a refresh
backend that would succeed with the new access token "accessB" and a retry that
would succeed — makes zero calls to the refresh endpoint, re-issues the request
zero times, and ends in the logged-out state with authenticated false: the
api.js 401 handler has already removed both stored tokens by the time the
AuthContext handler runs, so refreshToken fails fast and logout fires, instead
of the claimed refresh-then-retry recovery with authenticated true throughout. -/
theorem c1_refresh_retry_scenario_broken :
    processRequest (.err 401) .ok (some "accessB") midSessionState =
      (.failure, loggedOutState, ⟨0, 0⟩) := by
  decide

/-- Claim C2: on every 401 the api.js error interceptor removes both stored
tokens, and because it was registered at module load it runs before the
AuthContext refresh-retry interceptor registered later; hence even a first 401
leaves the store with no refresh token by the time refreshToken reads it — for
every starting state and every refresh backend the error chain makes zero
refresh-endpoint calls, rejects, and ends logged out. -/
theorem c2_base_401_clears_store_first :
    ∀ (s : AuthState) (backend : Option String),
      (baseErrorHandler 401 s).store.accessToken = none ∧
      (baseErrorHandler 401 s).store.refreshToken = none ∧
      responseErrorChain 401 false backend s =
        (.rejectError, loggedOutState, 0) :=
  fun _s _backend => ⟨rfl, rfl, rfl⟩

/-- Counterexample to claim C3 as stated: with the authenticated state
midSessionState2, a 401 answered exactly once (the retry would succeed, the
refresh backend would answer "accB") produces a trace of zero refresh-endpoint
calls and zero retried calls — not the claimed exactly one of each. -/
theorem c3_counterexample :
    (processRequest (.err 401) HttpResult.ok (some "accB") midSessionState2).2.2 =
      ⟨0, 0⟩ ∧
    (processRequest (.err 401) HttpResult.ok (some "accB") midSessionState2).2.2 ≠
      ⟨1, 1⟩ := by
  constructor
  · decide
  · decide

/-- Claim C3 (amended): no request is ever retried more than once and the
refresh endpoint is never called more than once per request — in this code a
single 401 in fact triggers zero refresh-endpoint calls and zero retries,
because the base interceptor clears the refresh token first — and the
request-scoped retry marker is decisive: the error chain for a request whose
marker is already set performs no refresh attempt and rejects at once. -/
theorem c3_retry_at_most_once :
    ∀ (first retryResult : HttpResult) (backend : Option String) (s : AuthState),
      (processRequest first retryResult backend s).2.2.retriedCalls ≤ 1 ∧
      (processRequest first retryResult backend s).2.2.refreshEndpointCalls ≤ 1 ∧
      (∀ st : Nat, responseErrorChain st true backend s =
        (.rejectError, baseErrorHandler st s, 0)) := by
  intro first retryResult backend s
  refine ⟨?_, ?_, ?_⟩
  · rw [processRequest_trace]
    decide
  · rw [processRequest_trace]
    decide
  · intro st
    exact responseErrorChain_retried st backend s

/-- Counterexample to claim C4 as stated: restoring with a stored access token
whose payload is expired (expiredParse at time 100) leaves the session in a
partial configuration — unauthenticated, no user, yet both tokens still in the
store — contradicting the claimed two-configuration dichotomy and the claim
that an expired stored token leaves no tokens behind. -/
theorem c4_counterexample :
    checkAuthStatus expiredParse 100 staleRestoreState = staleRestoreState ∧
    staleRestoreState.isAuthenticated = false ∧
    staleRestoreState.user = none ∧
    staleRestoreState.store.accessToken = some "h.p.s" ∧
    staleRestoreState.store.refreshToken = some "refR" := by
  refine ⟨?_, rfl, rfl, rfl, rfl⟩
  decide

/-- Claim C4 (amended): restoration from a restart (initial state: user null,
flag false) never modifies the store; it reaches the authenticated
configuration, with a populated user, only when a valid access token is
stored, and in every other case returns the start state unchanged — so a
stored but expired or malformed access token, and any stored refresh token,
remain in the store while the session is unauthenticated. -/
theorem c4_restore_dichotomy :
    ∀ (parse : String → Option TokenPayload) (now : Int) (store : Store)
      (hdr : Option String),
      (checkAuthStatus parse now ⟨store, hdr, none, false⟩).store = store ∧
      ((checkAuthStatus parse now ⟨store, hdr, none, false⟩).isAuthenticated =
          false →
        checkAuthStatus parse now ⟨store, hdr, none, false⟩ =
          ⟨store, hdr, none, false⟩) ∧
      ((checkAuthStatus parse now ⟨store, hdr, none, false⟩).isAuthenticated =
          true →
        ∃ t, store.accessToken = some t ∧ isTokenValid parse now t = true ∧
          (checkAuthStatus parse now ⟨store, hdr, none, false⟩).user ≠ none) := by
  intro parse now store hdr
  obtain ⟨a, r⟩ := store
  rcases a with _ | t
  · exact ⟨rfl, fun _ => rfl, fun h => by simp [checkAuthStatus] at h⟩
  · by_cases ht : t = ""
    · refine ⟨?_, ?_, ?_⟩ <;> simp [checkAuthStatus, ht]
    · cases hb : isTokenValid parse now t with
      | false =>
        refine ⟨?_, ?_, ?_⟩ <;> simp [checkAuthStatus, ht, hb]
      | true =>
        rcases hu : getUserFromToken parse now t with _ | td
        · refine ⟨?_, ?_, ?_⟩ <;> simp [checkAuthStatus, ht, hb, hu]
        · refine ⟨?_, ?_, ?_⟩ <;> simp [checkAuthStatus, ht, hb, hu]

/-- Witness for C4 (amended) at the empty store: restoration changes nothing. -/
theorem c4_restore_dichotomy_witness :
    checkAuthStatus (fun _ => none) 0 ⟨⟨none, none⟩, none, none, false⟩ =
      ⟨⟨none, none⟩, none, none, false⟩ :=
  (c4_restore_dichotomy (fun _ => none) 0 ⟨none, none⟩ none).2.1 rfl

/-- Claim C5: refreshToken fails fast with the no-refresh-token condition when
the store holds no refresh token — the key absent, or holding the falsy empty
string — with zero endpoint calls, logout applied and the error propagated; for
a stored non-empty refresh token, on success it stores the new access token and
updates the default header while leaving user and isAuthenticated untouched,
and on a rejected refresh call it applies logout and propagates the failure. -/
theorem c5_refreshAccessToken_contract :
    (∀ (backend a hdr : Option String) (u : Option UserData) (auth : Bool),
      refreshToken backend ⟨⟨a, none⟩, hdr, u, auth⟩ =
        (.error .noRefreshToken, loggedOutState, 0)) ∧
    (∀ (backend a hdr : Option String) (u : Option UserData) (auth : Bool),
      refreshToken backend ⟨⟨a, some ""⟩, hdr, u, auth⟩ =
        (.error .noRefreshToken, loggedOutState, 0)) ∧
    (∀ (t r : String) (a hdr : Option String) (u : Option UserData)
      (auth : Bool), r ≠ "" →
      refreshToken (some t) ⟨⟨a, some r⟩, hdr, u, auth⟩ =
        (.ok t, ⟨⟨some t, some r⟩, some ("Bearer " ++ t), u, auth⟩, 1)) ∧
    (∀ (r : String) (a hdr : Option String) (u : Option UserData)
      (auth : Bool), r ≠ "" →
      refreshToken none ⟨⟨a, some r⟩, hdr, u, auth⟩ =
        (.error .requestFailed, loggedOutState, 1)) := by
  refine ⟨fun _ _ _ _ _ => rfl, fun _ _ _ _ _ => rfl, ?_, ?_⟩
  · intro t r a hdr u auth hr
    simp [refreshToken, hr]
  · intro r a hdr u auth hr
    simp [refreshToken, hr, logout]

/-- Witness for C5 at a concrete non-empty refresh token: the successful
refresh swaps the access token and header, leaving user and flag untouched. -/
theorem c5_refreshAccessToken_contract_witness :
    refreshToken (some "tokB") ⟨⟨some "tokA", some "refR"⟩, none, none, true⟩ =
      (.ok "tokB", ⟨⟨some "tokB", some "refR"⟩, some ("Bearer " ++ "tokB"),
        none, true⟩, 1) :=
  c5_refreshAccessToken_contract.2.2.1 "tokB" "refR" (some "tokA") none none
    true (by decide)

/-- Claim C6: login sends the lower-cased, trimmed email in the request body
whatever the backend outcome; modelled as a total function it cannot throw,
and on any failure it returns the structured failure result with the
normalized message while leaving the (unauthenticated) session state exactly
as it was — in particular still unauthenticated. -/
theorem c6_login_failure_contract :
    ∀ (email pw msg : String) (backend : Except String LoginResponse)
      (store : Store) (hdr : Option String) (u : Option UserData),
      (login email pw backend ⟨store, hdr, u, false⟩).2.2.email =
        jsTrim (jsToLower email) ∧
      (login email pw (.error msg) ⟨store, hdr, u, false⟩).1 =
        .failure (loginErrorMessage msg) ∧
      (login email pw (.error msg) ⟨store, hdr, u, false⟩).2.1 =
        ⟨store, hdr, u, false⟩ := by
  intro email pw msg backend store hdr u
  refine ⟨?_, rfl, rfl⟩
  cases backend <;> rfl
